import Mathlib

/-!
Shallow embedding of the skybm backend (src/server.js): an Express/Mongoose
service exposing CRUD routes over two collections, blog posts and gallery
images, with gallery deletion also removing the asset at the external media
host (Cloudinary). Collections are modelled as lists of records, the media
host as an oracle that either raises or returns a result value, and each
handler as a pure function from request data and database state to an HTTP
status code, the resulting database state, and (for gallery deletion) the
trace of external calls it issued.
-/

namespace Skybm

/-- JS truthiness of an optional string field of a JSON body: the check
writes in src/server.js as a bang on the field, which is true exactly when the
field is absent (undefined) or the empty string. -/
def falsyStr : Option String → Bool
  | none => true
  | some s => s == ""

/-- A gallery image record (gallerySchema, src/server.js lines 55-60). The
`id` is the identifier generated by the persistence layer; `createdAt`
defaults to the server-side creation time. -/
structure GalleryImage where
  id : Nat
  src : String
  publicId : String
  alt : String
  createdAt : Int
deriving DecidableEq, Repr

/-- What the media host's destroy-by-publicId call returns when it does not
raise: its result field reports whether the asset was found and deleted
(the handler never looks at this). -/
inductive DestroyResult
  | deleted
  | notFound
deriving DecidableEq, Repr

/-- The media host gateway (cloudinary.uploader.destroy): deletion by
publicId either raises (modelled as an error) or returns a result value. -/
structure MediaHost where
  destroy : String → Except Unit DestroyResult

/-- The external calls the gallery deletion handler can issue, recorded in
the order the handler awaits them. -/
inductive Call
  | dbFindById (id : Nat)
  | destroy (publicId : String)
  | dbDelete (id : Nat)
deriving DecidableEq, Repr

/-- GalleryImage.findById: the record with the given id, if any. -/
def findById (db : List GalleryImage) (i : Nat) : Option GalleryImage :=
  db.find? (fun img => img.id == i)

/-- The database state after GalleryImage.findByIdAndDelete: the record with
the given id, if present, is removed. -/
def deleteById (db : List GalleryImage) (i : Nat) : List GalleryImage :=
  db.eraseP (fun img => img.id == i)

/-- DELETE /api/gallery/:id (src/server.js lines 103-119), with the database
state at lookup time `db1` distinguished from the database state at delete
time `db2`, to express that a concurrent change may occur between the two
awaited database calls; the sequential run is `deleteGallery` below where the
two coincide. Returns the HTTP status, the final database state, and the
trace of external calls issued. The handler looks the record up, then awaits
the media-host destroy on the stored publicId; if that raises, the catch
block returns 500 and the record is never deleted; otherwise it awaits
findByIdAndDelete and returns 200 without inspecting either call's result. -/
def deleteGalleryAt (host : MediaHost) (db1 db2 : List GalleryImage) (i : Nat) :
    Nat × List GalleryImage × List Call :=
  match findById db1 i with
  | none => (404, db2, [Call.dbFindById i])
  | some image =>
    match host.destroy image.publicId with
    | Except.error _ => (500, db2, [Call.dbFindById i, Call.destroy image.publicId])
    | Except.ok _ =>
        (200, deleteById db2 i,
          [Call.dbFindById i, Call.destroy image.publicId, Call.dbDelete i])

/-- DELETE /api/gallery/:id run sequentially against one database state. -/
def deleteGallery (host : MediaHost) (db : List GalleryImage) (i : Nat) :
    Nat × List GalleryImage × List Call :=
  deleteGalleryAt host db db i

/-- The JSON body of POST /api/gallery. The handler destructures exactly
src, publicId and alt from it; `extra` stands for all the other fields a
caller may have sent (as field-name and value pairs), which the handler never
reads. -/
structure GalleryReq where
  src : Option String
  publicId : Option String
  alt : Option String
  extra : List (String × String)
deriving DecidableEq, Repr

/-- POST /api/gallery (src/server.js lines 85-100): if src or publicId is
falsy, respond 400 and persist nothing; otherwise persist a new record built
from src, publicId and alt only, with `newId` the identifier generated by the
persistence layer and `now` the server-side creation time (the schema default
for createdAt), and respond 201 with the new record. -/
def postGallery (db : List GalleryImage) (req : GalleryReq) (newId : Nat) (now : Int) :
    Nat × List GalleryImage × Option GalleryImage :=
  if falsyStr req.src || falsyStr req.publicId then
    (400, db, none)
  else
    let img : GalleryImage :=
      { id := newId, src := req.src.getD "", publicId := req.publicId.getD "",
        alt := req.alt.getD "Event Image", createdAt := now }
    (201, db ++ [img], some img)

/-- A blog post record (blogSchema, src/server.js lines 33-53). The schema
option timestamps maintains createdAt and updatedAt; dates are modelled as
integer timestamps. -/
structure Blog where
  title : String
  excerpt : String
  featuredImage : Option String
  publishDate : Int
  slug : String
  category : String
  author : String
  readTime : Option Nat
  tags : List String
  content : String
  createdAt : Int
  updatedAt : Int
deriving DecidableEq, Repr

/-- The JSON body of POST /api/blogs, with exactly the fields the handler
destructures (src/server.js lines 159-170); an absent field is `none`. -/
structure BlogReq where
  title : Option String
  excerpt : Option String
  featuredImage : Option String
  category : Option String
  content : Option String
  slug : Option String
  author : Option String
  readTime : Option Nat
  tags : Option (List String)
  publishDate : Option Int
deriving DecidableEq, Repr

/-- Blog.findOne on slug: the first stored post with the given slug. -/
def findBySlug (db : List Blog) (s : String) : Option Blog :=
  db.find? (fun b => b.slug == s)

/-- The publishDate stored by blog creation (src/server.js lines 191-193):
the JS conditional tests the truthiness of the supplied value, so an absent
publishDate and a falsy supplied one (timestamp 0) both fall back to the
current time `now`; a truthy supplied value is stored as given. -/
def resolvePublishDate (pd : Option Int) (now : Int) : Int :=
  match pd with
  | none => now
  | some d => if d = 0 then now else d

/-- The record persisted by POST /api/blogs (src/server.js lines 181-194):
author defaults to Admin when absent (the schema default applies to the
undefined field), publishDate is resolved as in `resolvePublishDate`, and
createdAt and updatedAt are set to `now` by the schema timestamps option. -/
def mkBlog (req : BlogReq) (now : Int) : Blog :=
  { title := req.title.getD "", excerpt := req.excerpt.getD "",
    featuredImage := req.featuredImage,
    publishDate := resolvePublishDate req.publishDate now,
    slug := req.slug.getD "", category := req.category.getD "",
    author := req.author.getD "Admin",
    readTime := req.readTime, tags := req.tags.getD [],
    content := req.content.getD "",
    createdAt := now, updatedAt := now }

/-- POST /api/blogs continued (src/server.js lines 157-202): validation,
slug-uniqueness check, then persistence of the record built by `mkBlog`.
Returns the status, the new database state, and the persisted record if
any. -/
def createBlog (db : List Blog) (req : BlogReq) (now : Int) :
    Nat × List Blog × Option Blog :=
  if falsyStr req.title || falsyStr req.excerpt || falsyStr req.category ||
      falsyStr req.content || falsyStr req.slug then
    (400, db, none)
  else
    match findBySlug db (req.slug.getD "") with
    | some _ => (409, db, none)
    | none => (201, db ++ [mkBlog req now], some (mkBlog req now))

/-- GET /api/blogs (src/server.js lines 122-129): all posts sorted by
publishDate descending (Blog.find().sort with publishDate -1), modelled by a
stable sort under the descending comparison. -/
def getBlogs (db : List Blog) : List Blog :=
  db.mergeSort (fun a b => decide (b.publishDate ≤ a.publishDate))

/-- The projection { title: 1, slug: 1 } used by the admin list. -/
structure BlogSummary where
  title : String
  slug : String
deriving DecidableEq, Repr

/-- Project a stored post to the admin summary fields. -/
def summarize (b : Blog) : BlogSummary :=
  { title := b.title, slug := b.slug }

/-- GET /api/admin/blogs (src/server.js lines 145-154): all posts sorted by
createdAt descending, each projected to title and slug. -/
def adminBlogs (db : List Blog) : List BlogSummary :=
  (db.mergeSort (fun a b => decide (b.createdAt ≤ a.createdAt))).map summarize

/-! Concrete fixtures used by the witness and counterexample theorems. -/

/-- A stored gallery image with id 1. -/
def imgA : GalleryImage :=
  { id := 1, src := "https://x/a.jpg", publicId := "pid-a",
    alt := "Event Image", createdAt := 0 }

/-- A media host whose destroy call always raises. -/
def failingHost : MediaHost :=
  { destroy := fun _ => Except.error () }

/-- A media host whose destroy call returns normally but reports that the
asset was not found. -/
def notFoundHost : MediaHost :=
  { destroy := fun _ => Except.ok DestroyResult.notFound }

/-- A blog-creation body carrying all five required fields and nothing else. -/
def reqFull : BlogReq :=
  { title := some "A", excerpt := some "B", featuredImage := none,
    category := some "C", content := some "D", slug := some "a-post",
    author := none, readTime := none, tags := none, publishDate := none }

/-- A stored blog post with slug a-post. -/
def blogA : Blog :=
  { title := "A", excerpt := "B", featuredImage := none, publishDate := 0,
    slug := "a-post", category := "C", author := "Admin", readTime := none,
    tags := [], content := "D", createdAt := 0, updatedAt := 0 }

/-- A creation body with a duplicate slug but a missing title. -/
def reqDupNoTitle : BlogReq :=
  { reqFull with title := none }

/-- A creation body that supplies the falsy publishDate 0. -/
def reqPd0 : BlogReq :=
  { reqFull with publishDate := some 0 }

/-- A gallery-creation body with valid src and publicId and extra
caller-supplied fields id and createdAt. -/
def galleryReqExtra : GalleryReq :=
  { src := some "https://x/y.jpg", publicId := some "pid-y", alt := none,
    extra := [("id", "999"), ("createdAt", "123456")] }

/-- The same gallery-creation body without the extra fields. -/
def galleryReqPlain : GalleryReq :=
  { src := some "https://x/y.jpg", publicId := some "pid-y", alt := none,
    extra := [] }

/-- C1: for every gallery-image deletion by an id whose record exists, the
handler issues the media-host destroy on the record's stored publicId
strictly before any database record deletion appears in its call trace; and
whenever the media-host call raises, the handler returns the generic 500
failure and the database still contains the record (no partial deletion). -/
theorem gallery_delete_asset_before_record (host : MediaHost)
    (db : List GalleryImage) (i : Nat) (image : GalleryImage)
    (h : findById db i = some image) :
    (∃ pre post, (deleteGallery host db i).2.2 =
        pre ++ Call.destroy image.publicId :: post ∧ Call.dbDelete i ∉ pre) ∧
    (∀ e, host.destroy image.publicId = Except.error e →
      (deleteGallery host db i).1 = 500 ∧
      (deleteGallery host db i).2.1 = db ∧
      findById (deleteGallery host db i).2.1 i = some image) := by
  cases hd : host.destroy image.publicId with
  | error e =>
      refine ⟨⟨[Call.dbFindById i], [], ?_, ?_⟩, ?_⟩
      · simp [deleteGallery, deleteGalleryAt, h, hd]
      · simp
      · intro e2 _
        simp [deleteGallery, deleteGalleryAt, h, hd]
  | ok r =>
      refine ⟨⟨[Call.dbFindById i], [Call.dbDelete i], ?_, ?_⟩, ?_⟩
      · simp [deleteGallery, deleteGalleryAt, h, hd]
      · simp
      · intro e2 he
        simp at he

/-- Witness for C1 at the one-record database and the always-raising media
host. -/
theorem gallery_delete_asset_before_record_witness :
    findById [imgA] 1 = some imgA ∧
    ((∃ pre post, (deleteGallery failingHost [imgA] 1).2.2 =
        pre ++ Call.destroy imgA.publicId :: post ∧ Call.dbDelete 1 ∉ pre) ∧
     (∀ e, failingHost.destroy imgA.publicId = Except.error e →
       (deleteGallery failingHost [imgA] 1).1 = 500 ∧
       (deleteGallery failingHost [imgA] 1).2.1 = [imgA] ∧
       findById (deleteGallery failingHost [imgA] 1).2.1 1 = some imgA)) :=
  ⟨rfl, gallery_delete_asset_before_record failingHost [imgA] 1 imgA rfl⟩

/-- C5: deleting a gallery image by an id that matches no stored record
returns 404, leaves the database unchanged, and issues no media-host destroy
call. -/
theorem gallery_delete_not_found (host : MediaHost)
    (db : List GalleryImage) (i : Nat) (h : findById db i = none) :
    (deleteGallery host db i).1 = 404 ∧
    (deleteGallery host db i).2.1 = db ∧
    ∀ p, Call.destroy p ∉ (deleteGallery host db i).2.2 := by
  simp [deleteGallery, deleteGalleryAt, h]

/-- Witness for C5 at a nonempty database and an id it does not contain. -/
theorem gallery_delete_not_found_witness :
    findById [imgA] 2 = none ∧
    ((deleteGallery notFoundHost [imgA] 2).1 = 404 ∧
     (deleteGallery notFoundHost [imgA] 2).2.1 = [imgA] ∧
     ∀ p, Call.destroy p ∉ (deleteGallery notFoundHost [imgA] 2).2.2) :=
  ⟨rfl, gallery_delete_not_found notFoundHost [imgA] 2 rfl⟩

/-- C8: the value returned by the media-host destroy is never inspected:
whenever it returns without raising — whatever result value `r` it reports,
including that the asset was not found — the handler deletes the database
record and responds 200. -/
theorem gallery_delete_ignores_destroy_result (host : MediaHost)
    (db : List GalleryImage) (i : Nat) (image : GalleryImage)
    (r : DestroyResult) (h1 : findById db i = some image)
    (h2 : host.destroy image.publicId = Except.ok r) :
    deleteGallery host db i =
      (200, deleteById db i,
        [Call.dbFindById i, Call.destroy image.publicId, Call.dbDelete i]) := by
  simp [deleteGallery, deleteGalleryAt, h1, h2]

/-- Witness for C8 at a media host reporting the asset as not found. -/
theorem gallery_delete_ignores_destroy_result_witness :
    findById [imgA] 1 = some imgA ∧
    notFoundHost.destroy imgA.publicId = Except.ok DestroyResult.notFound ∧
    deleteGallery notFoundHost [imgA] 1 =
      (200, deleteById [imgA] 1,
        [Call.dbFindById 1, Call.destroy imgA.publicId, Call.dbDelete 1]) :=
  ⟨rfl, rfl,
    gallery_delete_ignores_destroy_result notFoundHost [imgA] 1 imgA
      DestroyResult.notFound rfl rfl⟩

/-- C9: the result of the final database delete is never inspected: if the
lookup (against the database as it was then, `db1`) found a record and the
media-host call returns without raising, the handler responds 200 whatever
the database `db2` holds by the time the delete runs — even when the record
has disappeared and the delete removes nothing. -/
theorem gallery_delete_ignores_delete_result (host : MediaHost)
    (db1 db2 : List GalleryImage) (i : Nat) (image : GalleryImage)
    (r : DestroyResult) (h1 : findById db1 i = some image)
    (h2 : host.destroy image.publicId = Except.ok r) :
    (deleteGalleryAt host db1 db2 i).1 = 200 ∧
    (deleteGalleryAt host db1 db2 i).2.1 = deleteById db2 i := by
  simp [deleteGalleryAt, h1, h2]

/-- Witness for C9 where the record present at lookup time has disappeared
by delete time (empty database), so the delete removes nothing, yet the
response is still 200. -/
theorem gallery_delete_ignores_delete_result_witness :
    findById [imgA] 1 = some imgA ∧
    notFoundHost.destroy imgA.publicId = Except.ok DestroyResult.notFound ∧
    findById [] 1 = none ∧
    ((deleteGalleryAt notFoundHost [imgA] [] 1).1 = 200 ∧
     (deleteGalleryAt notFoundHost [imgA] [] 1).2.1 = deleteById [] 1) :=
  ⟨rfl, rfl, rfl,
    gallery_delete_ignores_delete_result notFoundHost [imgA] [] 1 imgA
      DestroyResult.notFound rfl rfl⟩

/-- C3: blog creation with any of the five required fields title, excerpt,
category, content, slug absent or empty returns 400 and persists nothing:
the stored collection is unchanged. -/
theorem blog_create_missing_field (db : List Blog) (req : BlogReq) (now : Int)
    (h : falsyStr req.title ∨ falsyStr req.excerpt ∨ falsyStr req.category ∨
         falsyStr req.content ∨ falsyStr req.slug) :
    createBlog db req now = (400, db, none) := by
  have hc : (falsyStr req.title || falsyStr req.excerpt || falsyStr req.category ||
      falsyStr req.content || falsyStr req.slug) = true := by
    rcases h with h | h | h | h | h <;> simp [h]
  simp [createBlog, hc]

/-- Witness for C3 at a body missing its title. -/
theorem blog_create_missing_field_witness :
    (falsyStr reqDupNoTitle.title ∨ falsyStr reqDupNoTitle.excerpt ∨
     falsyStr reqDupNoTitle.category ∨ falsyStr reqDupNoTitle.content ∨
     falsyStr reqDupNoTitle.slug) ∧
    createBlog [] reqDupNoTitle 1 = (400, [], none) :=
  ⟨Or.inl (by decide),
    blog_create_missing_field [] reqDupNoTitle 1 (Or.inl (by decide))⟩

/-- C2 counterexample: the body reqDupNoTitle carries the slug of the stored
post blogA but no title; the handler returns 400 (the required-field check
runs before the slug check), not Conflict 409 as the claim states for every
duplicate-slug request. -/
theorem blog_create_duplicate_slug_counterexample :
    findBySlug [blogA] "a-post" = some blogA ∧
    reqDupNoTitle.slug = some "a-post" ∧
    (createBlog [blogA] reqDupNoTitle 1).1 = 400 ∧
    (createBlog [blogA] reqDupNoTitle 1).1 ≠ 409 :=
  ⟨rfl, rfl, rfl, by decide⟩

/-- C2 (amended): a creation request whose five required fields are present
and non-empty and whose slug equals a stored post's slug returns Conflict
409 and leaves the stored collection unchanged — the existing post is not
altered and nothing new is persisted. -/
theorem blog_create_duplicate_slug (db : List Blog) (req : BlogReq) (now : Int)
    (b : Blog)
    (hv : (falsyStr req.title || falsyStr req.excerpt || falsyStr req.category ||
           falsyStr req.content || falsyStr req.slug) = false)
    (hdup : findBySlug db (req.slug.getD "") = some b) :
    createBlog db req now = (409, db, none) := by
  simp [createBlog, hv, hdup]

/-- Witness for C2 (amended) at a fully populated body whose slug matches
the stored post. -/
theorem blog_create_duplicate_slug_witness :
    (falsyStr reqFull.title || falsyStr reqFull.excerpt || falsyStr reqFull.category ||
     falsyStr reqFull.content || falsyStr reqFull.slug) = false ∧
    findBySlug [blogA] (reqFull.slug.getD "") = some blogA ∧
    createBlog [blogA] reqFull 1 = (409, [blogA], none) :=
  ⟨by decide, rfl, blog_create_duplicate_slug [blogA] reqFull 1 blogA (by decide) rfl⟩

/-- C4: the blog list operation returns all stored posts — a permutation of
the database, so nothing is filtered out or paginated away — sorted by
publishDate in descending order, for any stored collection. -/
theorem get_blogs_sorted_desc (db : List Blog) :
    (getBlogs db).Perm db ∧
    (getBlogs db).Pairwise (fun a b => b.publishDate ≤ a.publishDate) := by
  constructor
  · exact List.mergeSort_perm db _
  · have h := @List.sorted_mergeSort Blog
      (fun a b => decide (b.publishDate ≤ a.publishDate))
      (fun a b c hab hbc => by
        simp only [decide_eq_true_eq] at hab hbc ⊢
        exact le_trans hbc hab)
      (fun a b => by
        simp only [Bool.or_eq_true, decide_eq_true_eq]
        exact le_total b.publishDate a.publishDate)
      db
    exact h.imp (fun hab => by simpa using hab)

/-- C7: the admin blog list is the title-and-slug projection of an
arrangement of all stored posts (a permutation of the database) sorted by
createdAt in descending order. -/
theorem admin_blogs_projection_sorted (db : List Blog) :
    ∃ l : List Blog, l.Perm db ∧
      l.Pairwise (fun a b => b.createdAt ≤ a.createdAt) ∧
      adminBlogs db = l.map summarize := by
  refine ⟨db.mergeSort (fun a b => decide (b.createdAt ≤ a.createdAt)),
    List.mergeSort_perm db _, ?_, rfl⟩
  have h := @List.sorted_mergeSort Blog
    (fun a b => decide (b.createdAt ≤ a.createdAt))
    (fun a b c hab hbc => by
      simp only [decide_eq_true_eq] at hab hbc ⊢
      exact le_trans hbc hab)
    (fun a b => by
      simp only [Bool.or_eq_true, decide_eq_true_eq]
      exact le_total b.createdAt a.createdAt)
    db
  exact h.imp (fun hab => by simpa using hab)

/-- C6 counterexample: a valid creation body that supplies publishDate 0
(a falsy value, the epoch timestamp) is persisted with publishDate equal to
the creation time 5, not the supplied 0 — the supplied value is not stored. -/
theorem blog_create_publish_date_counterexample :
    reqPd0.publishDate = some 0 ∧
    (createBlog [] reqPd0 5).1 = 201 ∧
    ((createBlog [] reqPd0 5).2.2.map Blog.publishDate) = some 5 ∧
    ((createBlog [] reqPd0 5).2.2.map Blog.publishDate) ≠ some 0 :=
  ⟨rfl, rfl, rfl, by decide⟩

/-- C6 (amended): a creation request with all required fields present and a
fresh slug succeeds with 201, persisting exactly one new record; when author
is omitted the stored author is Admin, when publishDate is omitted the
stored publishDate is the creation time, and a supplied truthy (nonzero)
publishDate is stored as given — a supplied falsy publishDate (0) is treated
as absent and replaced by the creation time. -/
theorem blog_create_defaults (db : List Blog) (req : BlogReq) (now : Int)
    (hv : (falsyStr req.title || falsyStr req.excerpt || falsyStr req.category ||
           falsyStr req.content || falsyStr req.slug) = false)
    (hs : findBySlug db (req.slug.getD "") = none) :
    createBlog db req now = (201, db ++ [mkBlog req now], some (mkBlog req now)) ∧
    (req.author = none → (mkBlog req now).author = "Admin") ∧
    (req.publishDate = none → (mkBlog req now).publishDate = now) ∧
    (∀ d, req.publishDate = some d → d ≠ 0 → (mkBlog req now).publishDate = d) := by
  refine ⟨?_, ?_, ?_, ?_⟩
  · simp [createBlog, hv, hs]
  · intro ha
    simp [mkBlog, ha]
  · intro hp
    simp [mkBlog, resolvePublishDate, hp]
  · intro d hp hd
    simp [mkBlog, resolvePublishDate, hp, hd]

/-- Witness for C6 (amended) at the body with only the required fields, on
the empty database, at creation time 7. -/
theorem blog_create_defaults_witness :
    (falsyStr reqFull.title || falsyStr reqFull.excerpt || falsyStr reqFull.category ||
     falsyStr reqFull.content || falsyStr reqFull.slug) = false ∧
    findBySlug [] (reqFull.slug.getD "") = none ∧
    (createBlog [] reqFull 7 =
        (201, [] ++ [mkBlog reqFull 7], some (mkBlog reqFull 7)) ∧
     (reqFull.author = none → (mkBlog reqFull 7).author = "Admin") ∧
     (reqFull.publishDate = none → (mkBlog reqFull 7).publishDate = 7) ∧
     (∀ d, reqFull.publishDate = some d → d ≠ 0 →
       (mkBlog reqFull 7).publishDate = d)) :=
  ⟨by decide, rfl, blog_create_defaults [] reqFull 7 (by decide) rfl⟩

/-- C10: gallery creation reads only src, publicId and alt from the body:
two bodies agreeing on those three fields yield identical outcomes whatever
other fields the caller sent, and every successfully stored record has its
id and createdAt set server-side to the generated id and the creation time. -/
theorem gallery_create_reads_only_three_fields (db : List GalleryImage)
    (req1 req2 : GalleryReq) (newId : Nat) (now : Int)
    (hsrc : req1.src = req2.src) (hpid : req1.publicId = req2.publicId)
    (halt : req1.alt = req2.alt) :
    postGallery db req1 newId now = postGallery db req2 newId now ∧
    ∀ img, (postGallery db req1 newId now).2.2 = some img →
      img.id = newId ∧ img.createdAt = now := by
  constructor
  · simp [postGallery, hsrc, hpid, halt]
  · intro img himg
    by_cases hc : (falsyStr req1.src || falsyStr req1.publicId) = true
    · simp [postGallery, hc] at himg
    · simp only [Bool.not_eq_true] at hc
      simp [postGallery, hc] at himg
      rw [← himg]
      exact ⟨rfl, rfl⟩

/-- Witness for C10: the body with extra caller-supplied id and createdAt
fields behaves exactly like the body without them. -/
theorem gallery_create_reads_only_three_fields_witness :
    galleryReqExtra.src = galleryReqPlain.src ∧
    galleryReqExtra.publicId = galleryReqPlain.publicId ∧
    galleryReqExtra.alt = galleryReqPlain.alt ∧
    (postGallery [] galleryReqExtra 9 42 = postGallery [] galleryReqPlain 9 42 ∧
     ∀ img, (postGallery [] galleryReqExtra 9 42).2.2 = some img →
       img.id = 9 ∧ img.createdAt = 42) :=
  ⟨rfl, rfl, rfl,
    gallery_create_reads_only_three_fields [] galleryReqExtra galleryReqPlain
      9 42 rfl rfl rfl⟩

end Skybm
